import Mathlib

/-!
# Verification of the OCL host-side runtime core

Shallow embedding of the OCL repository's core components — `Buffer<T>`
(src/include/ocl/Buffer.hpp), `NDRange` (src/src/NDRange.cpp,
src/include/ocl/NDRange.hpp), `Kernel` dispatch (src/src/Kernel.cpp),
`Program` construction (src/src/Program.cpp) and the move-only handle
pattern shared by Kernel/Program/CommandQueue — together with proofs of
the specification's claims about them.

Machine integers (`size_t`) are modelled as `Nat`; native OpenCL calls are
modelled as trace entries (`NativeCmd`) recording which native command an
operation enqueues, so that "fails before any native call" is expressible
as an empty trace.  Thrown exceptions become an `Option OclError` result
component, the thrower leaving the object state unchanged exactly where
the C++ throw happens before any mutation.
-/

namespace OCL

/-- Errors raised by the core.  Contract violations (`capacityExceeded`,
`rangeExceeded`, `invalidWorkSize`, `invalidArgument`) correspond to the
`throw std::runtime_error` / `std::invalid_argument` statements the core
executes itself, before calling into the native layer. -/
inductive OclError where
  | capacityExceeded
  | rangeExceeded
  | invalidWorkSize
  | invalidArgument
  | notFound
  deriving DecidableEq, Repr

/-- Native commands an operation submits to the OpenCL layer.  Only the
shape (which entry point, with which offsets/lengths in elements) is
recorded; payload bytes are irrelevant to the claims. -/
inductive NativeCmd where
  | enqueueWrite (offset len : Nat) (blocking : Bool)
  | enqueueRead (offset len : Nat) (blocking : Bool)
  | enqueueNDRange (dims global : Nat) (specifiedLocal : Option Nat)
  | createProgramWithSource (length : Nat)
  deriving DecidableEq, Repr

/-- `Buffer<T>` (src/include/ocl/Buffer.hpp): a typed device memory region.
`handle` models the `cl_mem buffer_` pointer (`none` = null), `size` the
logical element count `size_`, `capacity` the allocated element count
`capacity_`. -/
structure Buffer (α : Type) where
  handle : Option Nat
  size : Nat
  capacity : Nat
  deriving DecidableEq, Repr

namespace Buffer

/-- `Buffer()` default constructor: null handle, size = capacity = 0. -/
def default (α : Type) : Buffer α := ⟨none, 0, 0⟩

/-- `Buffer(context, count, flags)`: allocates `count` elements; the member
initialisers set `size_(count), capacity_(count)`.  `h` is the fresh native
handle returned by a successful `clCreateBuffer`. -/
def create (α : Type) (h : Nat) (count : Nat) : Buffer α :=
  ⟨some h, count, count⟩

/-- `Buffer(context, data, flags)`: allocates and copies host data; the
member initialisers set `size_(data.size()), capacity_(data.size())`. -/
def fromData (h : Nat) (data : List α) : Buffer α :=
  ⟨some h, data.length, data.length⟩

/-- `write(queue, data, blocking)` — the vector overload without offset.
Throws when `data.size() > capacity_`, otherwise sets `size_ = data.size()`
and enqueues a native write of `data.size()` elements at byte offset 0. -/
def write (b : Buffer α) (data : List α) (blocking : Bool) :
    Option OclError × Buffer α × List NativeCmd :=
  if data.length > b.capacity then
    (some .capacityExceeded, b, [])
  else
    (none, { b with size := data.length },
      [.enqueueWrite 0 data.length blocking])

/-- `writeAsync(queue, data, event)`: same capacity check and `size_`
update as `write`, with a forced non-blocking native write. -/
def writeAsync (b : Buffer α) (data : List α) :
    Option OclError × Buffer α × List NativeCmd :=
  if data.length > b.capacity then
    (some .capacityExceeded, b, [])
  else
    (none, { b with size := data.length },
      [.enqueueWrite 0 data.length false])

/-- `write(queue, data, offset, blocking)` — the vector overload with
offset.  Throws when `offset + data.size() > capacity_`; never touches
`size_`. -/
def writeOfs (b : Buffer α) (data : List α) (offset : Nat) (blocking : Bool) :
    Option OclError × Buffer α × List NativeCmd :=
  if offset + data.length > b.capacity then
    (some .capacityExceeded, b, [])
  else
    (none, b, [.enqueueWrite offset data.length blocking])

/-- `write(queue, data*, count, offset, blocking)` — the raw-pointer
overload.  Throws when `offset + count > capacity_`; never touches
`size_`.  The pointed-to bytes are irrelevant to the claims, so only
`count` is modelled. -/
def writePtr (b : Buffer α) (count offset : Nat) (blocking : Bool) :
    Option OclError × Buffer α × List NativeCmd :=
  if offset + count > b.capacity then
    (some .capacityExceeded, b, [])
  else
    (none, b, [.enqueueWrite offset count blocking])

/-- `read(queue, data, blocking)` — the full-buffer read.  No range check;
resizes the output vector to `size_` elements and enqueues a native read of
`size_` elements from offset 0.  `outLen` is the output vector's length on
entry; the returned `Nat` is its length on exit. -/
def readAll (b : Buffer α) (_outLen : Nat) (blocking : Bool) :
    Option OclError × Nat × List NativeCmd :=
  (none, b.size, [.enqueueRead 0 b.size blocking])

/-- `read(queue, data, count, offset, blocking)` — the partial read
(vector overload).  Throws when `offset + count > size_` before resizing;
otherwise resizes the output to `count` elements and enqueues the native
read. -/
def readRange (b : Buffer α) (count offset outLen : Nat) (blocking : Bool) :
    Option OclError × Nat × List NativeCmd :=
  if offset + count > b.size then
    (some .rangeExceeded, outLen, [])
  else
    (none, count, [.enqueueRead offset count blocking])

/-- `read(queue, data*, count, offset, blocking)` — the raw-pointer read.
Same range check as the vector overload; no resize (raw memory). -/
def readPtr (b : Buffer α) (count offset : Nat) (blocking : Bool) :
    Option OclError × List NativeCmd :=
  if offset + count > b.size then
    (some .rangeExceeded, [])
  else
    (none, [.enqueueRead offset count blocking])

/-- `fill(queue, value, blocking)`: materialises a host vector of `size_`
copies of `value` and delegates to the no-offset `write` overload. -/
def fill (b : Buffer α) (value : α) (blocking : Bool) :
    Option OclError × Buffer α × List NativeCmd :=
  b.write (List.replicate b.size value) blocking

/-- `~Buffer()`: releases the handle when non-null.  The result is the
list of native handles released by this destruction. -/
def destroy (b : Buffer α) : List Nat :=
  match b.handle with
  | some h => [h]
  | none => []

/-- `Buffer(Buffer&& other)`: the destination adopts `buffer_`, `size_`,
`capacity_`; the source is nulled (`buffer_ = nullptr; size_ = 0;
capacity_ = 0`).  Result: (destination, moved-from source). -/
def moveCtor (src : Buffer α) : Buffer α × Buffer α :=
  (⟨src.handle, src.size, src.capacity⟩, ⟨none, 0, 0⟩)

/-- `operator=(Buffer&& other)` (non-self case): first releases the
destination's old handle when non-null, then adopts the source's fields
and nulls the source.  Result: (new destination, moved-from source,
handles released). -/
def moveAssign (dst src : Buffer α) : Buffer α × Buffer α × List Nat :=
  (⟨src.handle, src.size, src.capacity⟩, ⟨none, 0, 0⟩, dst.destroy)

/-- The data-model invariant of §3: `size_ <= capacity_`. -/
def inv (b : Buffer α) : Prop := b.size ≤ b.capacity

instance (b : Buffer α) : Decidable b.inv := by
  unfold inv; infer_instance

end Buffer

/-- The move-only handle pattern shared by Kernel (src/src/Kernel.cpp),
Program (src/src/Program.cpp) and CommandQueue (src/src/CommandQueue.cpp):
exactly one native handle pointer (`none` = null). -/
structure ResHandle where
  handle : Option Nat
  deriving DecidableEq, Repr

namespace ResHandle

/-- The destructor pattern: release the handle when non-null.  Result:
the native handles released by this destruction. -/
def destroy (r : ResHandle) : List Nat :=
  match r.handle with
  | some h => [h]
  | none => []

/-- The move constructor pattern: destination adopts the handle, source
is nulled.  Result: (destination, moved-from source). -/
def moveCtor (src : ResHandle) : ResHandle × ResHandle :=
  (⟨src.handle⟩, ⟨none⟩)

/-- The move-assignment pattern (non-self case): the old handle of the
destination is released first, then the handle of the source is adopted
and the source nulled.  Result: (new destination, moved-from source,
handles released). -/
def moveAssign (dst src : ResHandle) : ResHandle × ResHandle × List Nat :=
  (⟨src.handle⟩, ⟨none⟩, dst.destroy)

end ResHandle

namespace Kernel

/-- `Kernel::execute` (src/src/Kernel.cpp, 1D dispatch): throws
`std::invalid_argument` ("Global work size must be a multiple of local
work size", the InvalidWorkSize contract violation) when
`local_work_size > 0 && global_work_size % local_work_size != 0`;
otherwise enqueues the native 1D range, passing the local size only when
it is positive (nullptr lets the driver choose). -/
def execute (globalSize localSize : Nat) : Option OclError × List NativeCmd :=
  if 0 < localSize ∧ globalSize % localSize ≠ 0 then
    (some .invalidWorkSize, [])
  else
    (none, [.enqueueNDRange 1 globalSize
      (if 0 < localSize then some localSize else none)])

end Kernel

/-- `Program::Program(const Context&, const std::string&)`
(src/src/Program.cpp): throws `std::invalid_argument` when the source
string is empty, before any native call; otherwise calls
`clCreateProgramWithSource` on the source text. -/
def programFromSource (source : String) : Option OclError × List NativeCmd :=
  if source.isEmpty then
    (some .invalidArgument, [])
  else
    (none, [.createProgramWithSource source.length])

namespace NDRange

/-- `NDRange::roundUp` (src/include/ocl/NDRange.hpp): round `value` up to
the nearest multiple of `multiple`; `multiple == 0` returns `value`
unchanged. -/
def roundUp (value multiple : Nat) : Nat :=
  if multiple = 0 then value
  else
    let remainder := value % multiple
    if remainder = 0 then value
    else value + multiple - remainder

/-- `NDRange::getPaddedGlobalSize` (src/include/ocl/NDRange.hpp):
delegates to `roundUp`. -/
def getPaddedGlobalSize (desiredSize localSize : Nat) : Nat :=
  roundUp desiredSize localSize

/-- The downward scan of `NDRange::findBestDivisor`: try `i, i-1, ..., 1`
and return the first divisor of `number`, or 1 when the scan is
exhausted (the loop guard `i >= 1` fails immediately for `i = 0`). -/
def findBestDivisorAux (number : Nat) : Nat → Nat
  | 0 => 1
  | i + 1 => if number % (i + 1) = 0 then i + 1 else findBestDivisorAux number i

/-- `NDRange::findBestDivisor` (src/src/NDRange.cpp): largest divisor of
`number` that is `<= max_value`, scanning down from
`min(number, max_value)`. -/
def findBestDivisor (number maxValue : Nat) : Nat :=
  findBestDivisorAux number (min number maxValue)

/-- The scale-up loop of `NDRange::getOptimal1D`:
`while (local_size * 2 <= max_work_group && local_size * 2 <= 1024)
 local_size *= 2;`, fuel-indexed because the C++ loop never exits when
`local_size` is 0 (`none` = fuel exhausted / divergence). -/
def scaleUpFuel : Nat → Nat → Nat → Option Nat
  | 0, _, _ => none
  | fuel + 1, maxWG, localSize =>
    if localSize * 2 ≤ maxWG ∧ localSize * 2 ≤ 1024 then
      scaleUpFuel fuel maxWG (localSize * 2)
    else
      some localSize

/-- The straight-line tail of `NDRange::getOptimal1D` after the scale-up
loop: `best_size = findBestDivisor(global_size, local_size)`, then snap
down to the preferred multiple when `preferred_multiple > 1` (falling back
to the preferred multiple itself when snapping yields 0), then
`return std::max(size_t(1), std::min(best_size, max_work_group));`. -/
def optimal1DBody (maxWG pm g localSize : Nat) : Nat :=
  let best := findBestDivisor g localSize
  let best2 :=
    if 1 < pm then
      let snapped := best / pm * pm
      if snapped = 0 then pm else snapped
    else best
  max 1 (min best2 maxWG)

/-- `NDRange::getOptimal1D` (src/src/NDRange.cpp) as a function of the
introspection results `maxWG = kernel.getWorkGroupSize(device)`,
`pm = kernel.getPreferredWorkGroupSizeMultiple(device)` and the requested
`g = global_size`.  Fuel 12 suffices for the scale-up loop whenever
`pm >= 1` (proved below); `pm = 0` makes the C++ loop diverge, modelled
as `none`. -/
def getOptimal1D (maxWG pm g : Nat) : Option Nat :=
  (scaleUpFuel 12 maxWG pm).map (optimal1DBody maxWG pm g)

end NDRange

end OCL

namespace OCL

/-- C1: `size <= capacity` holds after construction with an explicit
count, after construction from host data, after every (successful or
failed) write through any overload, and after `fill`. -/
theorem buffer_size_le_capacity_invariant
    (α : Type) (h count offset : Nat) (data hostData : List α)
    (b : Buffer α) (hb : b.inv) (blocking : Bool) (v : α) :
    (Buffer.create α h count).inv ∧
    (Buffer.fromData h hostData).inv ∧
    (b.write data blocking).2.1.inv ∧
    (b.writeAsync data).2.1.inv ∧
    (b.writeOfs data offset blocking).2.1.inv ∧
    (b.writePtr count offset blocking).2.1.inv ∧
    (b.fill v blocking).2.1.inv := by
  refine ⟨Nat.le_refl _, Nat.le_refl _, ?_, ?_, ?_, ?_, ?_⟩
  · unfold Buffer.write
    split
    · exact hb
    · simpa [Buffer.inv] using Nat.le_of_not_lt (by assumption)
  · unfold Buffer.writeAsync
    split
    · exact hb
    · simpa [Buffer.inv] using Nat.le_of_not_lt (by assumption)
  · unfold Buffer.writeOfs
    split
    · exact hb
    · exact hb
  · unfold Buffer.writePtr
    split
    · exact hb
    · exact hb
  · unfold Buffer.fill Buffer.write
    split
    · exact hb
    · next hcap =>
      simp only [List.length_replicate] at hcap
      simpa [Buffer.inv] using Nat.le_of_not_lt hcap

/-- Witness for C1 at a concrete buffer: capacity 4, size 3. -/
theorem buffer_size_le_capacity_invariant_witness :
    (Buffer.create Nat 7 4).inv ∧
    (Buffer.fromData 7 [1, 2]).inv ∧
    ((⟨some 7, 3, 4⟩ : Buffer Nat).write [1, 2] true).2.1.inv ∧
    ((⟨some 7, 3, 4⟩ : Buffer Nat).writeAsync [1, 2]).2.1.inv ∧
    ((⟨some 7, 3, 4⟩ : Buffer Nat).writeOfs [1, 2] 1 true).2.1.inv ∧
    ((⟨some 7, 3, 4⟩ : Buffer Nat).writePtr 4 1 true).2.1.inv ∧
    ((⟨some 7, 3, 4⟩ : Buffer Nat).fill 0 true).2.1.inv :=
  buffer_size_le_capacity_invariant Nat 7 4 1 [1, 2] [1, 2]
    ⟨some 7, 3, 4⟩ (by decide) true 0

/-- C3 fails on the code: the no-offset vector overload sets `size_` to
the written length even for a below-capacity (partial) write, and the
offset overload does not set `size_` even for a full-capacity write at
offset 0.  Concretely, on a buffer with size = capacity = 4, writing a
2-element vector through the no-offset overload succeeds and changes
`size` to 2; and on a buffer with size 2, capacity 4, writing a
4-element vector at offset 0 through the offset overload leaves `size`
at 2 instead of adopting 4. -/
theorem write_size_discipline_counterexample :
    (((⟨some 7, 4, 4⟩ : Buffer Nat).write [5, 6] true).1 = none ∧
     ((⟨some 7, 4, 4⟩ : Buffer Nat).write [5, 6] true).2.1.size = 2 ∧
     (⟨some 7, 4, 4⟩ : Buffer Nat).size ≠ 2) ∧
    (((⟨some 7, 2, 4⟩ : Buffer Nat).writeOfs [5, 6, 8, 9] 0 true).1 = none ∧
     ((⟨some 7, 2, 4⟩ : Buffer Nat).writeOfs [5, 6, 8, 9] 0 true).2.1.size = 2 ∧
     (2 : Nat) ≠ 4) := by
  decide

/-- C3 (amended): `size` is updated exactly by the no-offset vector write
overload (and its async variant), which on success sets `size` to the
written length even when that length is below capacity; the offset
overload and the raw-pointer overload never change `size`, even for a
full-capacity write at offset 0. -/
theorem write_size_update_discipline
    (α : Type) (b : Buffer α) (data : List α) (count offset : Nat)
    (blocking : Bool) (hcap : data.length ≤ b.capacity) :
    (b.write data blocking).1 = none ∧
    (b.write data blocking).2.1.size = data.length ∧
    (b.writeAsync data).2.1.size = data.length ∧
    (b.writeOfs data offset blocking).2.1.size = b.size ∧
    (b.writePtr count offset blocking).2.1.size = b.size := by
  have h1 : ¬ data.length > b.capacity := by omega
  refine ⟨?_, ?_, ?_, ?_, ?_⟩
  · unfold Buffer.write; rw [if_neg h1]
  · unfold Buffer.write; rw [if_neg h1]
  · unfold Buffer.writeAsync; rw [if_neg h1]
  · unfold Buffer.writeOfs; split <;> rfl
  · unfold Buffer.writePtr; split <;> rfl

/-- Witness for the amended C3 on a concrete buffer of capacity 4. -/
theorem write_size_update_discipline_witness :
    (((⟨some 7, 4, 4⟩ : Buffer Nat).write [5, 6] true).1 = none ∧
     ((⟨some 7, 4, 4⟩ : Buffer Nat).write [5, 6] true).2.1.size = 2 ∧
     ((⟨some 7, 4, 4⟩ : Buffer Nat).writeAsync [5, 6]).2.1.size = 2 ∧
     ((⟨some 7, 4, 4⟩ : Buffer Nat).writeOfs [5, 6] 1 true).2.1.size = 4 ∧
     ((⟨some 7, 4, 4⟩ : Buffer Nat).writePtr 3 1 true).2.1.size = 4) :=
  write_size_update_discipline Nat ⟨some 7, 4, 4⟩ [5, 6] 3 1 true (by decide)

/-- C4: every write overload whose data would land beyond `capacity`
fails with CapacityExceeded, makes no native call (empty trace), and
leaves the buffer (hence `size` and `capacity`) unchanged. -/
theorem write_capacity_exceeded_atomic
    (α : Type) (b : Buffer α) (data : List α) (count offset : Nat)
    (blocking : Bool) (h1 : data.length > b.capacity)
    (h2 : offset + data.length > b.capacity)
    (h3 : offset + count > b.capacity) :
    b.write data blocking = (some .capacityExceeded, b, []) ∧
    b.writeAsync data = (some .capacityExceeded, b, []) ∧
    b.writeOfs data offset blocking = (some .capacityExceeded, b, []) ∧
    b.writePtr count offset blocking = (some .capacityExceeded, b, []) := by
  refine ⟨?_, ?_, ?_, ?_⟩
  · unfold Buffer.write; rw [if_pos h1]
  · unfold Buffer.writeAsync; rw [if_pos h1]
  · unfold Buffer.writeOfs; rw [if_pos h2]
  · unfold Buffer.writePtr; rw [if_pos h3]

/-- Witness for C4: capacity-2 buffer, 3-element data, offset 1. -/
theorem write_capacity_exceeded_atomic_witness :
    ((⟨some 7, 2, 2⟩ : Buffer Nat).write [5, 6, 8] true =
      (some .capacityExceeded, ⟨some 7, 2, 2⟩, []) ∧
     (⟨some 7, 2, 2⟩ : Buffer Nat).writeAsync [5, 6, 8] =
      (some .capacityExceeded, ⟨some 7, 2, 2⟩, []) ∧
     (⟨some 7, 2, 2⟩ : Buffer Nat).writeOfs [5, 6, 8] 1 true =
      (some .capacityExceeded, ⟨some 7, 2, 2⟩, []) ∧
     (⟨some 7, 2, 2⟩ : Buffer Nat).writePtr 2 1 true =
      (some .capacityExceeded, ⟨some 7, 2, 2⟩, [])) :=
  write_capacity_exceeded_atomic Nat ⟨some 7, 2, 2⟩ [5, 6, 8] 2 1 true
    (by decide) (by decide) (by decide)

/-- C5: the partial read fails with RangeExceeded exactly when
`offset + count > size` (leaving the output length untouched and making
no native call); otherwise the output is resized to exactly `count`
elements; the full-buffer read performs no range check, never fails it,
and resizes the output to `size` elements. -/
theorem read_range_check
    (α : Type) (b : Buffer α) (count offset outLen : Nat) (blocking : Bool) :
    ((b.readRange count offset outLen blocking).1 = some .rangeExceeded ↔
      offset + count > b.size) ∧
    (offset + count > b.size →
      b.readRange count offset outLen blocking =
        (some .rangeExceeded, outLen, [])) ∧
    (offset + count ≤ b.size →
      b.readRange count offset outLen blocking =
        (none, count, [.enqueueRead offset count blocking])) ∧
    ((b.readPtr count offset blocking).1 = some .rangeExceeded ↔
      offset + count > b.size) ∧
    b.readAll outLen blocking = (none, b.size, [.enqueueRead 0 b.size blocking]) := by
  refine ⟨?_, ?_, ?_, ?_, rfl⟩
  · unfold Buffer.readRange
    by_cases h : offset + count > b.size
    · rw [if_pos h]; simp [h]
    · rw [if_neg h]; simp [h]
  · intro h; unfold Buffer.readRange; rw [if_pos h]
  · intro h; unfold Buffer.readRange; rw [if_neg (by omega)]
  · unfold Buffer.readPtr
    by_cases h : offset + count > b.size
    · rw [if_pos h]; simp [h]
    · rw [if_neg h]; simp [h]

/-- Witness for C5: size-3 buffer; reading 2 elements at offset 1
succeeds with output length 2, reading 3 elements at offset 1 fails. -/
theorem read_range_check_witness :
    ((⟨some 7, 3, 4⟩ : Buffer Nat).readRange 2 1 0 true =
      (none, 2, [.enqueueRead 1 2 true])) ∧
    ((⟨some 7, 3, 4⟩ : Buffer Nat).readRange 3 1 0 true =
      (some .rangeExceeded, 0, [])) :=
  ⟨(read_range_check Nat ⟨some 7, 3, 4⟩ 2 1 0 true).2.2.1 (by decide),
   (read_range_check Nat ⟨some 7, 3, 4⟩ 3 1 0 true).2.1 (by decide)⟩

/-- C6: the 1D dispatch fails with InvalidWorkSize and submits nothing
when a positive local size does not divide the global size; a zero
(omitted) local size skips the check and submits with a driver-chosen
local size (`nullptr`). -/
theorem execute1D_divisibility_check (globalSize localSize : Nat)
    (hpos : 0 < localSize) (hndiv : globalSize % localSize ≠ 0) :
    Kernel.execute globalSize localSize = (some .invalidWorkSize, []) ∧
    Kernel.execute globalSize 0 = (none, [.enqueueNDRange 1 globalSize none]) := by
  constructor
  · unfold Kernel.execute; rw [if_pos ⟨hpos, hndiv⟩]
  · rfl

/-- Witness for C6: global size 5 with local size 2 is rejected. -/
theorem execute1D_divisibility_check_witness :
    Kernel.execute 5 2 = (some .invalidWorkSize, []) ∧
    Kernel.execute 5 0 = (none, [.enqueueNDRange 1 5 none]) :=
  execute1D_divisibility_check 5 2 (by decide) (by decide)

/-- C7: moving a Buffer or any ResHandle resource (Kernel, Program,
CommandQueue) gives the destination exactly the fields of the source,
leaves the source with a null handle (and zero size/capacity for
Buffer), so destroying the moved-from source releases nothing; and
move-assignment releases exactly the handles the destination previously
owned. -/
theorem move_leaves_source_empty
    (α : Type) (src dst : Buffer α) (rsrc rdst : ResHandle) :
    (Buffer.moveCtor src).1 = ⟨src.handle, src.size, src.capacity⟩ ∧
    (Buffer.moveCtor src).2 = ⟨none, 0, 0⟩ ∧
    (Buffer.moveCtor src).2.destroy = [] ∧
    (Buffer.moveAssign dst src).1 = ⟨src.handle, src.size, src.capacity⟩ ∧
    (Buffer.moveAssign dst src).2.1 = ⟨none, 0, 0⟩ ∧
    (Buffer.moveAssign dst src).2.2 = dst.destroy ∧
    (ResHandle.moveCtor rsrc).1 = ⟨rsrc.handle⟩ ∧
    (ResHandle.moveCtor rsrc).2 = ⟨none⟩ ∧
    (ResHandle.moveCtor rsrc).2.destroy = [] ∧
    (ResHandle.moveAssign rdst rsrc).1 = ⟨rsrc.handle⟩ ∧
    (ResHandle.moveAssign rdst rsrc).2.1 = ⟨none⟩ ∧
    (ResHandle.moveAssign rdst rsrc).2.2 = rdst.destroy :=
  ⟨rfl, rfl, rfl, rfl, rfl, rfl, rfl, rfl, rfl, rfl, rfl, rfl⟩

/-- C10: constructing a Program from an empty source string fails with an
invalid-argument error and makes no native call; any non-empty source
reaches the native `clCreateProgramWithSource` call. -/
theorem programFromSource_empty_source (source : String) :
    (source.isEmpty = true →
      programFromSource source = (some .invalidArgument, [])) ∧
    (source.isEmpty = false →
      programFromSource source = (none, [.createProgramWithSource source.length])) := by
  constructor
  · intro h; unfold programFromSource; rw [if_pos h]
  · intro h; unfold programFromSource; rw [if_neg (by simp [h])]

/-- Witness for C10 at the empty string and a one-character source. -/
theorem programFromSource_empty_source_witness :
    programFromSource "" = (some .invalidArgument, []) ∧
    programFromSource "x" = (none, [.createProgramWithSource "x".length]) :=
  ⟨(programFromSource_empty_source "").1 rfl,
   (programFromSource_empty_source "x").2 rfl⟩

/-- With `local_size = 0` the guard of the scale-up loop always holds, so
no amount of fuel reaches the exit: the C++ loop diverges. -/
lemma scaleUpFuel_zero_eq_none (fuel maxWG : Nat) :
    NDRange.scaleUpFuel fuel maxWG 0 = none := by
  induction fuel with
  | zero => rfl
  | succ f ih =>
    simp only [NDRange.scaleUpFuel]
    rw [if_pos (by omega : 0 * 2 ≤ maxWG ∧ 0 * 2 ≤ 1024)]
    exact ih

/-- Once `localSize * 2 ^ fuel` passes the 1024 ceiling, `fuel + 1` steps
of fuel are enough for the scale-up loop to exit. -/
lemma scaleUpFuel_isSome_of_big (maxWG : Nat) :
    ∀ (fuel localSize : Nat), 1024 < localSize * 2 ^ fuel →
      (NDRange.scaleUpFuel (fuel + 1) maxWG localSize).isSome = true := by
  intro fuel
  induction fuel with
  | zero =>
    intro localSize h
    simp only [pow_zero, mul_one] at h
    simp only [NDRange.scaleUpFuel]
    rw [if_neg (by omega)]
    rfl
  | succ f ih =>
    intro localSize h
    have h2 : 1024 < localSize * 2 * 2 ^ f := by
      have : localSize * 2 ^ (f + 1) = localSize * 2 * 2 ^ f := by ring
      omega
    simp only [NDRange.scaleUpFuel]
    split
    · exact ih (localSize * 2) h2
    · rfl

/-- Fuel 12 always suffices for the scale-up loop when the preferred
multiple is at least 1 (ten doublings already pass 1024). -/
lemma scaleUpFuel_12_isSome (maxWG pm : Nat) (hpm : 1 ≤ pm) :
    (NDRange.scaleUpFuel 12 maxWG pm).isSome = true := by
  have h := scaleUpFuel_isSome_of_big maxWG 11 pm ?_
  · exact h
  · have h1 : 1 * 2048 ≤ pm * 2048 := Nat.mul_le_mul_right 2048 hpm
    have h2 : pm * 2 ^ 11 = pm * 2048 := by norm_num
    omega

/-- The scale-up loop never shrinks its argument, and never exceeds the
device maximum when it starts at or below it. -/
lemma scaleUpFuel_bounds (maxWG : Nat) :
    ∀ (fuel localSize l : Nat),
      NDRange.scaleUpFuel fuel maxWG localSize = some l →
      localSize ≤ l ∧ (localSize ≤ maxWG → l ≤ maxWG) := by
  intro fuel
  induction fuel with
  | zero =>
    intro localSize l h
    exact absurd h (by simp [NDRange.scaleUpFuel])
  | succ f ih =>
    intro localSize l h
    simp only [NDRange.scaleUpFuel] at h
    by_cases hc : localSize * 2 ≤ maxWG ∧ localSize * 2 ≤ 1024
    · rw [if_pos hc] at h
      obtain ⟨h1, h2⟩ := ih (localSize * 2) l h
      exact ⟨by omega, fun _ => h2 hc.1⟩
    · rw [if_neg hc] at h
      obtain rfl := Option.some.inj h
      exact ⟨Nat.le_refl _, fun hh => hh⟩

/-- The downward scan always returns a divisor of `number` (1 is hit when
the scan exhausts). -/
lemma findBestDivisorAux_dvd (number : Nat) :
    ∀ i, NDRange.findBestDivisorAux number i ∣ number := by
  intro i
  induction i with
  | zero => exact one_dvd number
  | succ j ih =>
    simp only [NDRange.findBestDivisorAux]
    split
    · exact Nat.dvd_of_mod_eq_zero (by assumption)
    · exact ih

/-- The downward scan returns at least 1. -/
lemma findBestDivisorAux_pos (number : Nat) :
    ∀ i, 1 ≤ NDRange.findBestDivisorAux number i := by
  intro i
  induction i with
  | zero => simp [NDRange.findBestDivisorAux]
  | succ j ih =>
    simp only [NDRange.findBestDivisorAux]
    split
    · omega
    · exact ih

/-- The downward scan returns at most its starting point (or 1 when the
starting point is 0). -/
lemma findBestDivisorAux_le (number : Nat) :
    ∀ i, NDRange.findBestDivisorAux number i ≤ max 1 i := by
  intro i
  induction i with
  | zero => simp [NDRange.findBestDivisorAux]
  | succ j ih =>
    simp only [NDRange.findBestDivisorAux]
    split
    · omega
    · calc NDRange.findBestDivisorAux number j ≤ max 1 j := ih
        _ ≤ max 1 (j + 1) := by omega

/-- Clamping a candidate into `[1, maxWG]` stays in `[1, maxWG]` when
`maxWG >= 1`. -/
lemma clamp_bounds (s maxWG : Nat) (hmax : 1 ≤ maxWG) :
    1 ≤ max 1 (min s maxWG) ∧ max 1 (min s maxWG) ≤ maxWG := by
  omega

/-- The tail of getOptimal1D always lands in `[1, maxWG]` for
`maxWG >= 1`. -/
lemma optimal1DBody_bounds (maxWG pm g localSize : Nat) (hmax : 1 ≤ maxWG) :
    1 ≤ NDRange.optimal1DBody maxWG pm g localSize ∧
    NDRange.optimal1DBody maxWG pm g localSize ≤ maxWG := by
  simp only [NDRange.optimal1DBody, NDRange.findBestDivisor]
  exact clamp_bounds _ _ hmax

/-- A divisor leaves remainder zero. -/
lemma mod_eq_zero_of_dvd_nat {a b : Nat} (h : a ∣ b) : b % a = 0 := by
  obtain ⟨c, rfl⟩ := h
  exact Nat.mul_mod_right a c

/-- With preferred multiple 1 no snapping happens and the clamp is the
identity, so the tail returns the scanned divisor itself, which divides
the global size. -/
lemma optimal1DBody_pm_one_dvd (maxWG g localSize : Nat)
    (hloc : 1 ≤ localSize) (hlocle : localSize ≤ maxWG) :
    g % NDRange.optimal1DBody maxWG 1 g localSize = 0 := by
  have hA := findBestDivisorAux_pos g (min g localSize)
  have hAle := findBestDivisorAux_le g (min g localSize)
  have hAdvd := findBestDivisorAux_dvd g (min g localSize)
  have hres : NDRange.optimal1DBody maxWG 1 g localSize =
      NDRange.findBestDivisorAux g (min g localSize) := by
    simp only [NDRange.optimal1DBody, NDRange.findBestDivisor]
    rw [if_neg (lt_irrefl 1)]
    omega
  rw [hres]
  exact mod_eq_zero_of_dvd_nat hAdvd

/-- C2 fails on the code: for `globalExtent = 6`, `maxWorkGroupSize = 4`,
`preferredMultiple = 4`, the snap-to-multiple step turns the scanned
divisor 3 into 0 and the fallback returns the preferred multiple 4
itself, which does not divide 6. -/
theorem getOptimal1D_divides_counterexample :
    NDRange.getOptimal1D 4 4 6 = some 4 ∧ ¬ (6 % 4 = 0) := by
  decide

/-- C2 (amended): for every `globalExtent > 0`, `maxWorkGroupSize >= 1`
and `preferredMultiple >= 1`, getOptimal1D returns a localExtent with
`1 <= localExtent <= maxWorkGroupSize`; divisibility
`globalExtent % localExtent == 0` is additionally guaranteed when
`preferredMultiple = 1` (the snap-down step for a preferred multiple
above 1 can break it). -/
theorem getOptimal1D_bounds (maxWG pm g : Nat)
    (_hg : 0 < g) (hmax : 1 ≤ maxWG) (hpm : 1 ≤ pm) :
    ∃ l, NDRange.getOptimal1D maxWG pm g = some l ∧
      1 ≤ l ∧ l ≤ maxWG ∧ (pm = 1 → g % l = 0) := by
  obtain ⟨l0, hl0⟩ :=
    Option.isSome_iff_exists.mp (scaleUpFuel_12_isSome maxWG pm hpm)
  obtain ⟨hl0ge, hl0cond⟩ := scaleUpFuel_bounds maxWG 12 pm l0 hl0
  refine ⟨NDRange.optimal1DBody maxWG pm g l0, ?_, ?_, ?_, ?_⟩
  · unfold NDRange.getOptimal1D
    rw [hl0]
    rfl
  · exact (optimal1DBody_bounds maxWG pm g l0 hmax).1
  · exact (optimal1DBody_bounds maxWG pm g l0 hmax).2
  · intro hpm1
    subst hpm1
    exact optimal1DBody_pm_one_dvd maxWG g l0 hl0ge (hl0cond hmax)

/-- Witness for the amended C2: `maxWG = 1024`, `pm = 1`, `g = 1000`. -/
theorem getOptimal1D_bounds_witness :
    ∃ l, NDRange.getOptimal1D 1024 1 1000 = some l ∧
      1 ≤ l ∧ l ≤ 1024 ∧ (1 = 1 → 1000 % l = 0) :=
  getOptimal1D_bounds 1024 1 1000 (by decide) (by decide) (by decide)

/-- C9: the scale-up loop of getOptimal1D diverges for a preferred
multiple of 0 (no fuel reaches the exit, so the modelled function yields
`none`), and for every preferred multiple >= 1 it terminates within a
fixed fuel of 12, making getOptimal1D total there. -/
theorem getOptimal1D_termination (fuel maxWG pm g : Nat) (hpm : 1 ≤ pm) :
    NDRange.scaleUpFuel fuel maxWG 0 = none ∧
    (NDRange.scaleUpFuel 12 maxWG pm).isSome = true ∧
    NDRange.getOptimal1D maxWG 0 g = none ∧
    (NDRange.getOptimal1D maxWG pm g).isSome = true := by
  refine ⟨scaleUpFuel_zero_eq_none fuel maxWG,
    scaleUpFuel_12_isSome maxWG pm hpm, ?_, ?_⟩
  · unfold NDRange.getOptimal1D
    rw [scaleUpFuel_zero_eq_none 12 maxWG]
    rfl
  · unfold NDRange.getOptimal1D
    obtain ⟨l0, hl0⟩ :=
      Option.isSome_iff_exists.mp (scaleUpFuel_12_isSome maxWG pm hpm)
    rw [hl0]
    rfl

/-- Witness for C9 at fuel 3, `maxWG = 64`, `pm = 16`, `g = 128`. -/
theorem getOptimal1D_termination_witness :
    NDRange.scaleUpFuel 3 64 0 = none ∧
    (NDRange.scaleUpFuel 12 64 16).isSome = true ∧
    NDRange.getOptimal1D 64 0 128 = none ∧
    (NDRange.getOptimal1D 64 16 128).isSome = true :=
  getOptimal1D_termination 3 64 16 128 (by decide)

/-- C8: for `multiple > 0`, roundUp returns the least multiple of
`multiple` that is at least `value`; `roundUp value 0 = value`; the
concrete examples of the spec hold; and getPaddedGlobalSize coincides
with roundUp. -/
theorem roundUp_least_multiple (value multiple k : Nat) (hm : 0 < multiple)
    (hk : multiple ∣ k) (hvk : value ≤ k) :
    multiple ∣ NDRange.roundUp value multiple ∧
    value ≤ NDRange.roundUp value multiple ∧
    NDRange.roundUp value multiple ≤ k ∧
    NDRange.roundUp value 0 = value ∧
    NDRange.roundUp 1000 256 = 1024 ∧
    NDRange.roundUp 1024 256 = 1024 ∧
    NDRange.getPaddedGlobalSize value multiple = NDRange.roundUp value multiple := by
  have hmod : value % multiple < multiple := Nat.mod_lt value hm
  have hdm : multiple * (value / multiple) + value % multiple = value :=
    Nat.div_add_mod value multiple
  obtain ⟨t, rfl⟩ := hk
  have hspec : NDRange.roundUp value multiple =
      if value % multiple = 0 then value
      else multiple * (value / multiple) + multiple := by
    unfold NDRange.roundUp
    rw [if_neg (by omega : ¬ multiple = 0)]
    show (if value % multiple = 0 then value
        else value + multiple - value % multiple) =
      if value % multiple = 0 then value
      else multiple * (value / multiple) + multiple
    split
    · rfl
    · omega
  refine ⟨?_, ?_, ?_, ?_, by decide, by decide, rfl⟩
  · rw [hspec]
    split
    · exact Nat.dvd_of_mod_eq_zero (by assumption)
    · exact ⟨value / multiple + 1, by ring⟩
  · rw [hspec]
    split
    · exact Nat.le_refl _
    · omega
  · rw [hspec]
    split
    · exact hvk
    · next hne =>
      have hqt : value / multiple < t := by
        by_contra hcon
        have h1 : multiple * t ≤ multiple * (value / multiple) :=
          Nat.mul_le_mul_left multiple (by omega)
        omega
      have h2 : multiple * (value / multiple + 1) ≤ multiple * t :=
        Nat.mul_le_mul_left multiple hqt
      have h3 : multiple * (value / multiple + 1) =
          multiple * (value / multiple) + multiple := by ring
      omega
  · unfold NDRange.roundUp
    rw [if_pos rfl]

/-- Witness for C8 at `value = 1000`, `multiple = 256`, `k = 1024`. -/
theorem roundUp_least_multiple_witness :
    (256 : Nat) ∣ NDRange.roundUp 1000 256 ∧
    1000 ≤ NDRange.roundUp 1000 256 ∧
    NDRange.roundUp 1000 256 ≤ 1024 ∧
    NDRange.roundUp 1000 0 = 1000 ∧
    NDRange.roundUp 1000 256 = 1024 ∧
    NDRange.roundUp 1024 256 = 1024 ∧
    NDRange.getPaddedGlobalSize 1000 256 = NDRange.roundUp 1000 256 :=
  roundUp_least_multiple 1000 256 1024 (by decide) (by decide) (by decide)

end OCL
